import Mathlib

/-!
Verification development for the WeatherKI backend.

Shallow embedding of the TypeScript sources:
  - `src/services/cacheService.ts`   (generic TTL cache)
  - `src/services/weatherService.ts` (weather lookup with normalized cache key)
  - `src/controllers/geminiAIController.ts` (AI endpoints with response cache
     and local fallbacks)
  - widget controller and mongoose Widget model (CRUD with regex duplicate
     check and schema validation)

JavaScript `Map<string, V>` objects are modelled as association lists
`List (String × V)` with at most one binding per key; `Date.now()` becomes an
explicit `now : Int` parameter (milliseconds); outbound HTTP calls become
oracle functions passed in as an environment; `async`/`await` sequencing of a
single request becomes ordinary sequential evaluation.
-/

/-! ### JavaScript Map primitives -/

/-- `Map.prototype.get`: the value bound to `k`, if any (first binding). -/
def mapLookup {α : Type} (l : List (String × α)) (k : String) : Option α :=
  match l with
  | [] => none
  | (k', v) :: rest => if k' = k then some v else mapLookup rest k

/-- `Map.prototype.delete`: remove the binding of `k` (the first one;
with the one-binding-per-key invariant this is the only one). -/
def mapDelete {α : Type} (l : List (String × α)) (k : String) :
    List (String × α) :=
  match l with
  | [] => []
  | (k', v) :: rest => if k' = k then rest else (k', v) :: mapDelete rest k

/-- `Map.prototype.set`: overwrite the binding of `k` in place, or append a
new binding at the end (JS Maps keep insertion order). -/
def mapSet {α : Type} (l : List (String × α)) (k : String) (v : α) :
    List (String × α) :=
  match l with
  | [] => [(k, v)]
  | (k', v') :: rest =>
    if k' = k then (k, v) :: rest else (k', v') :: mapSet rest k v

/-- Decidable equality for `Except` results (not derived in core). -/
instance {e a : Type} [DecidableEq e] [DecidableEq a] :
    DecidableEq (Except e a) := fun x y =>
  match x, y with
  | Except.error u, Except.error v =>
    if h : u = v then Decidable.isTrue (h ▸ rfl)
    else Decidable.isFalse (fun hc => h (Except.error.inj hc))
  | Except.error _, Except.ok _ => Decidable.isFalse Except.noConfusion
  | Except.ok _, Except.error _ => Decidable.isFalse Except.noConfusion
  | Except.ok u, Except.ok v =>
    if h : u = v then Decidable.isTrue (h ▸ rfl)
    else Decidable.isFalse (fun hc => h (Except.ok.inj hc))

/-! ### JavaScript string primitives

Implemented over `List Char` so that every operation reduces inside the
kernel (`String.toLower`, `String.trim` and the `≤` order from the core
library are defined through `Substring` machinery that does not). -/

/-- `String.prototype.toLowerCase()` (per-character case folding). -/
def jsToLower (s : String) : String :=
  ⟨s.data.map Char.toLower⟩

/-- `String.prototype.trim()`: strip leading and trailing whitespace. -/
def jsTrim (s : String) : String :=
  ⟨((s.data.dropWhile Char.isWhitespace).reverse.dropWhile
      Char.isWhitespace).reverse⟩

/-- `s.length` (the number of characters). -/
def jsLength (s : String) : Nat :=
  s.data.length

/-- Lexicographic comparison of character lists by code point, the order
underlying the default JavaScript string comparison. -/
def charsLe : List Char → List Char → Bool
  | [], _ => true
  | _ :: _, [] => false
  | a :: as, b :: bs => if a = b then charsLe as bs else decide (a.toNat < b.toNat)

/-- The default JavaScript string order `a <= b`. -/
def jsLe (a b : String) : Bool :=
  charsLe a.data b.data

/-! ### cacheService.ts -/

/-- `CachedItem<T>` from cacheService.ts. -/
structure CachedItem (T : Type) where
  data : T
  timestamp : Int
  key : String
deriving Repr, DecidableEq

/-- `CacheService<T>`: the private `Map` plus the configured duration
(`cacheDurationMs`, default 5 minutes). -/
structure CacheService (T : Type) where
  cache : List (String × CachedItem T)
  cacheDuration : Int
deriving Repr, DecidableEq

namespace CacheService

/-- `isExpired(item)`: `(Date.now() - item.timestamp) > this.cacheDuration`. -/
def isExpired {T : Type} (s : CacheService T) (now : Int)
    (item : CachedItem T) : Bool :=
  now - item.timestamp > s.cacheDuration

/-- `set(key, data)`: store the item timestamped with the current time. -/
def set {T : Type} (s : CacheService T) (now : Int) (key : String) (data : T) :
    CacheService T :=
  { s with cache := mapSet s.cache key ⟨data, now, key⟩ }

/-- `get(key)`: value if present and fresh; evict and return `none` if present
but expired; `none` if absent.  Returns the possibly updated state. -/
def get {T : Type} (s : CacheService T) (now : Int) (key : String) :
    Option T × CacheService T :=
  match mapLookup s.cache key with
  | none => (none, s)
  | some item =>
    if s.isExpired now item then
      (none, { s with cache := mapDelete s.cache key })
    else
      (some item.data, s)

/-- `has(key)`: same freshness check as `get`, evicting if expired. -/
def has {T : Type} (s : CacheService T) (now : Int) (key : String) :
    Bool × CacheService T :=
  match mapLookup s.cache key with
  | none => (false, s)
  | some item =>
    if s.isExpired now item then
      (false, { s with cache := mapDelete s.cache key })
    else
      (true, s)

/-- `delete(key)`: unconditional removal, reporting whether a binding existed. -/
def del {T : Type} (s : CacheService T) (key : String) :
    Bool × CacheService T :=
  ((mapLookup s.cache key).isSome, { s with cache := mapDelete s.cache key })

/-- `clear()`: empty the store. -/
def clear {T : Type} (s : CacheService T) : CacheService T :=
  { s with cache := [] }

/-- The entry scan of `clearExpired()`: iterate the entries in order, dropping
each expired one. -/
def clearExpiredList {T : Type} (now dur : Int) :
    List (String × CachedItem T) → List (String × CachedItem T)
  | [] => []
  | (k, item) :: rest =>
    if now - item.timestamp > dur then clearExpiredList now dur rest
    else (k, item) :: clearExpiredList now dur rest

/-- `clearExpired()`: evict every expired entry. -/
def clearExpired {T : Type} (s : CacheService T) (now : Int) : CacheService T :=
  { s with cache := clearExpiredList now s.cacheDuration s.cache }

end CacheService

/-! ### weatherService.ts -/

/-- `WeatherData` from weatherService.ts.  JavaScript numbers are IEEE
doubles; no claim under verification depends on fractional values, so they
are modelled at integer precision throughout. -/
structure WeatherData where
  temperature : Int
  condition : String
  humidity : Int
  windSpeed : Int
  icon : String
  description : String
  cityName : String
  country : String
deriving Repr, DecidableEq

/-- `GeocodeResult` from weatherService.ts. -/
structure GeocodeResult where
  latitude : Int
  longitude : Int
  name : String
  country : String
deriving Repr, DecidableEq

/-- The `current` block of the Open-Meteo forecast payload, as read by
`getWeatherForLocation`. -/
structure CurrentWeather where
  temperature_2m : Int
  relative_humidity_2m : Int
  weather_code : Int
  wind_speed_10m : Int
deriving Repr, DecidableEq

/-- Outbound HTTP calls of the weather service, as oracles: `geocodeLocation`
(keyed by the raw location string) and `fetchWeatherData` (keyed by the
resolved coordinates).  An `Except.error` value stands for any thrown error
(location not found, timeout, provider error). -/
structure WeatherEnv where
  geocode : String → Except String GeocodeResult
  forecast : Int → Int → Except String CurrentWeather

namespace WeatherService

/-- `getWeatherIcon(weatherCode)`: ascending inclusive upper-bound
thresholds, first match wins.  Icon strings are copied byte-for-byte from the
source file. -/
def getWeatherIcon (weatherCode : Int) : String :=
  if weatherCode = 0 then "‚òÄÔ∏è"
  else if weatherCode ≤ 3 then "‚õÖ"
  else if weatherCode ≤ 48 then "üå´Ô∏è"
  else if weatherCode ≤ 67 then "üåßÔ∏è"
  else if weatherCode ≤ 77 then "üå®Ô∏è"
  else if weatherCode ≤ 82 then "üå¶Ô∏è"
  else if weatherCode ≤ 99 then "‚õàÔ∏è"
  else "üå§Ô∏è"

/-- `getWeatherDescription(weatherCode)`: the exact-match description table,
defaulting to "Unknown". -/
def getWeatherDescription (weatherCode : Int) : String :=
  if weatherCode = 0 then "Clear sky"
  else if weatherCode = 1 then "Mainly clear"
  else if weatherCode = 2 then "Partly cloudy"
  else if weatherCode = 3 then "Overcast"
  else if weatherCode = 45 then "Foggy"
  else if weatherCode = 48 then "Depositing rime fog"
  else if weatherCode = 51 then "Light drizzle"
  else if weatherCode = 53 then "Moderate drizzle"
  else if weatherCode = 55 then "Dense drizzle"
  else if weatherCode = 61 then "Slight rain"
  else if weatherCode = 63 then "Moderate rain"
  else if weatherCode = 65 then "Heavy rain"
  else if weatherCode = 71 then "Slight snow"
  else if weatherCode = 73 then "Moderate snow"
  else if weatherCode = 75 then "Heavy snow"
  else if weatherCode = 80 then "Slight rain showers"
  else if weatherCode = 81 then "Moderate rain showers"
  else if weatherCode = 82 then "Violent rain showers"
  else if weatherCode = 95 then "Thunderstorm"
  else if weatherCode = 96 then "Thunderstorm with hail"
  else if weatherCode = 99 then "Thunderstorm with heavy hail"
  else "Unknown"

/-- The list of weather codes that have an entry in the description table. -/
def describedCodes : List Int :=
  [0, 1, 2, 3, 45, 48, 51, 53, 55, 61, 63, 65, 71, 73, 75, 80, 81, 82, 95, 96, 99]

/-- The cache key of `getWeatherForLocation`:
`location.toLowerCase().trim()`. -/
def normalizeKey (location : String) : String :=
  jsTrim (jsToLower location)

/-- `getWeatherForLocation(location)`.  Returns the lookup result, the
updated cache state, and the number of outbound network calls made
(geocoding and forecast each count one). -/
def getWeatherForLocation (env : WeatherEnv) (s : CacheService WeatherData)
    (now : Int) (location : String) :
    Except String WeatherData × CacheService WeatherData × Nat :=
  match CacheService.get s now (normalizeKey location) with
  | (some cachedData, s1) => (Except.ok cachedData, s1, 0)
  | (none, s1) =>
    match env.geocode location with
    | Except.error e => (Except.error e, s1, 1)
    | Except.ok g =>
      match env.forecast g.latitude g.longitude with
      | Except.error e => (Except.error e, s1, 2)
      | Except.ok current =>
        let weatherInfo : WeatherData := {
          -- `Math.round(x)` and `Math.round(x * 10) / 10`: at the integer
          -- precision of this model both are the identity
          temperature := current.temperature_2m
          condition := getWeatherDescription current.weather_code
          humidity := current.relative_humidity_2m
          windSpeed := current.wind_speed_10m
          icon := getWeatherIcon current.weather_code
          description := getWeatherDescription current.weather_code
          cityName := g.name
          country := g.country }
        (Except.ok weatherInfo, s1.set now (normalizeKey location) weatherInfo, 2)

end WeatherService

/-! ### geminiAIController.ts -/

/-- The OpenWeatherMap payload fields read by the gemini controller
(`data.main.temp`, `data.weather[0].description`, `data.main.humidity`). -/
structure OWMWeather where
  temp : Int
  description : String
  humidity : Int
deriving Repr, DecidableEq

/-- One entry of the controller's private `aiCache` map. -/
structure AIEntry where
  data : String
  timestamp : Int
deriving Repr, DecidableEq

/-- `CACHE_TTL = 5 * 60 * 1000` (milliseconds). -/
def CACHE_TTL : Int := 5 * 60 * 1000

/-- Outbound calls of the gemini controller, as oracles: `getWeatherData`
(returns `null` on any error, modelled by `none`) and `callGemini` (a prompt
and a `maxTokens` budget; an `Except.error` value stands for the thrown
"AI service unavailable" error). -/
structure GeminiEnv where
  weather : String → Option OWMWeather
  gemini : String → Nat → Except Unit String

namespace GeminiAIController

/-- `JSON.stringify` of a string value (escaping of special characters inside
the string is elided; the claims evaluate it only on plain text). -/
def jsonStr (s : String) : String :=
  "\"" ++ s ++ "\""

/-- `JSON.stringify` of an array of strings. -/
def jsonArr (xs : List String) : String :=
  "[" ++ String.intercalate "," (xs.map jsonStr) ++ "]"

/-- JavaScript `Array.prototype.sort()` on an array of strings: sort by the
default (lexicographic) string comparison. -/
def jsSort (xs : List String) : List String :=
  List.insertionSort (fun a b => jsLe a b = true) xs

/-- `getCacheKey(type, data)` = `type + "-" + JSON.stringify(data)`; the
second argument is the already-serialized payload. -/
def getCacheKey (type serialized : String) : String :=
  type ++ "-" ++ serialized

/-- `getCachedResponse(key)`: the cached text if present and younger than
`CACHE_TTL` (strict less-than); no eviction on this path. -/
def getCachedResponse (cache : List (String × AIEntry)) (now : Int)
    (key : String) : Option String :=
  match mapLookup cache key with
  | some cached => if now - cached.timestamp < CACHE_TTL then some cached.data else none
  | none => none

/-- `setCachedResponse(key, data)`. -/
def setCachedResponse (cache : List (String × AIEntry)) (now : Int)
    (key : String) (data : String) : List (String × AIEntry) :=
  mapSet cache key ⟨data, now⟩

/-- JavaScript number rendering (at the integer precision of this model). -/
def numStr (n : Int) : String :=
  toString n

/-- `(temps.reduce((a, b) => a + b, 0) / temps.length).toFixed(1)`: the
average of the temperatures rendered with one decimal digit.  The IEEE-double
division and rounding of the source are computed here exactly over ℤ:
`Int.fdiv (20 * sum + n) (2 * n)` is the number of tenths of the average,
rounded half up. -/
def avgFixed1 (temps : List Int) : String :=
  let t : Int :=
    Int.fdiv (20 * temps.foldl (· + ·) 0 + (temps.length : Int))
      (2 * (temps.length : Int))
  (if t < 0 then "-" else "") ++
    toString (t.natAbs / 10) ++ "." ++ toString (t.natAbs % 10)

/-! #### POST /api/weather/ai/chat -/

/-- `JSON.stringify({question, locations})`: an `undefined` field is omitted
by `JSON.stringify`. -/
def jsonChatBody (q : String) (locations : Option (List String)) : String :=
  match locations with
  | none => "\x7b\"question\":" ++ jsonStr q ++ "\x7d"
  | some locs =>
    "\x7b\"question\":" ++ jsonStr q ++ ",\"locations\":" ++ jsonArr locs ++ "\x7d"

/-- One element of the chat `weatherContext`: weather line on success,
"unavailable" placeholder on a failed lookup. -/
def chatEntry (env : GeminiEnv) (loc : String) : String :=
  match env.weather loc with
  | some data =>
    loc ++ ": " ++ numStr data.temp ++ "°C, " ++ data.description ++
      ", humidity " ++ toString data.humidity ++ "%"
  | none => loc ++ ": Weather data unavailable"

/-- The chat `weatherContext`: per-location entries joined by ". ". -/
def chatWeatherContext (env : GeminiEnv) (locations : List String) : String :=
  String.intercalate ". " (locations.map (chatEntry env))

/-- The chat prompt sent to the generative provider. -/
def chatPrompt (q weatherContext : String) : String :=
  "You are a helpful weather assistant. Answer this weather question in a conversational, friendly way: \"" ++
    q ++ "\". \n\nCurrent weather data: " ++ weatherContext ++
    "\n\nKeep your response concise and informative (under 100 words)."

/-- The chat fallback served when the provider call fails. -/
def chatFallback (locations : Option (List String)) : String :=
  "I can help with weather questions! You\x27re currently tracking " ++
    toString (match locations with | some l => l.length | none => 0) ++
    " locations. Check your weather widgets for current conditions."

/-- Observable outcome of a chat request: HTTP status, the `response` body
field, the `error` body field, and the AI-cache state afterwards. -/
structure ChatResult where
  status : Nat
  response : Option String
  error : Option String
  cache : List (String × AIEntry)
deriving Repr, DecidableEq

/-- `handleWeatherChat`. -/
def handleWeatherChat (env : GeminiEnv) (cache : List (String × AIEntry))
    (now : Int) (question : Option String) (locations : Option (List String)) :
    ChatResult :=
  match question with
  | none => ⟨400, none, some "Question is required", cache⟩
  | some q =>
    if q = "" then ⟨400, none, some "Question is required", cache⟩
    else
      let cacheKey := getCacheKey "chat" (jsonChatBody q locations)
      match getCachedResponse cache now cacheKey with
      | some cachedResponse => ⟨200, some cachedResponse, none, cache⟩
      | none =>
        let weatherContext :=
          match locations with
          | some locs => if locs.length > 0 then chatWeatherContext env locs else ""
          | none => ""
        match env.gemini (chatPrompt q weatherContext) 200 with
        | Except.ok response =>
          ⟨200, some response, none, setCachedResponse cache now cacheKey response⟩
        | Except.error _ => ⟨200, some (chatFallback locations), none, cache⟩

/-! #### POST /api/weather/ai/summary -/

/-- The `weatherSummary` string built by the `forEach` loop: each successful
location appends a fragment, a failed one appends nothing. -/
def summaryWeatherContext (env : GeminiEnv) : List String → String
  | [] => ""
  | loc :: rest =>
    (match env.weather loc with
     | some data => loc ++ ": " ++ numStr data.temp ++ "°C, " ++ data.description ++ ". "
     | none => "") ++ summaryWeatherContext env rest

/-- The summary prompt sent to the generative provider. -/
def summaryPrompt (weatherSummary : String) : String :=
  "Create a concise, engaging daily weather summary for these locations: " ++
    weatherSummary ++
    "\n\nPlease:\n- Highlight interesting patterns or contrasts\n- Provide brief insights about the overall weather picture\n- Keep it informative but engaging\n- Limit to 150 words"

/-- The summary fallback: average temperature over the successful results
followed by the composed weather summary. -/
def summaryFallback (successfulResults : Nat) (temps : List Int)
    (weatherSummary : String) : String :=
  "Weather Summary: Average temperature across " ++ toString successfulResults ++
    " locations is " ++ avgFixed1 temps ++ "°C. " ++ weatherSummary

/-- Observable outcome of a summary request; `geminiCalled` records whether
the generative-provider call was made. -/
structure SummaryResult where
  status : Nat
  summary : Option String
  error : Option String
  geminiCalled : Bool
  cache : List (String × AIEntry)
deriving Repr, DecidableEq

/-- `generateWeatherSummary`.  Note that `locations.sort()` sorts the request
array in place, so every later use of `locations` sees the sorted array. -/
def generateWeatherSummary (env : GeminiEnv) (cache : List (String × AIEntry))
    (now : Int) (locations : Option (List String)) : SummaryResult :=
  match locations with
  | none => ⟨400, none, some "Locations array is required", false, cache⟩
  | some locs0 =>
    if locs0.length = 0 then
      ⟨400, none, some "Locations array is required", false, cache⟩
    else
      let locs := jsSort locs0
      let cacheKey := getCacheKey "summary" (jsonArr locs)
      match getCachedResponse cache now cacheKey with
      | some cachedResponse => ⟨200, some cachedResponse, none, false, cache⟩
      | none =>
        let weatherSummary := summaryWeatherContext env locs
        let successfulResults := (locs.filter (fun l => (env.weather l).isSome)).length
        if weatherSummary = "" then
          ⟨400, none, some "No weather data available for provided locations", false, cache⟩
        else
          match env.gemini (summaryPrompt weatherSummary) 300 with
          | Except.ok summary =>
            ⟨200, some summary, none, true, setCachedResponse cache now cacheKey summary⟩
          | Except.error _ =>
            let temps := locs.filterMap (fun l => (env.weather l).map OWMWeather.temp)
            ⟨200, some (summaryFallback successfulResults temps weatherSummary),
              none, true, cache⟩

/-! #### POST /api/weather/ai/suggestions -/

/-- `JSON.stringify({currentLocations, interests})`: an `undefined` field is
omitted. -/
def jsonSuggestionsBody (currentLocations : Option (List String))
    (interests : String) : String :=
  match currentLocations with
  | none => "\x7b\"interests\":" ++ jsonStr interests ++ "\x7d"
  | some locs =>
    "\x7b\"currentLocations\":" ++ jsonArr locs ++ ",\"interests\":" ++
      jsonStr interests ++ "\x7d"

/-- `currentLocations?.join(', ') || 'no locations yet'` (an empty join is
falsy in JavaScript). -/
def trackedStr (currentLocations : Option (List String)) : String :=
  match currentLocations with
  | none => "no locations yet"
  | some locs =>
    let j := String.intercalate ", " locs
    if j = "" then "no locations yet" else j

/-- The suggestions prompt sent to the generative provider. -/
def suggestionsPrompt (currentLocations : Option (List String))
    (interests : String) : String :=
  "You are a travel and weather advisor. The user currently tracks weather for: " ++
    trackedStr currentLocations ++ ".\n\nTheir interests are: " ++ interests ++
    "\n\nPlease suggest exactly 5 interesting locations around the world that would be perfect for someone with these interests. For each location, provide:\n1. The city/country name\n2. Why it matches their interests\n3. What makes the weather/climate special there\n\nFormat as a numbered list. Be specific and helpful."

/-- The suggestions fallback: the canned five-item list. -/
def suggestionsFallback (interests : String) : String :=
  "Based on your interests in " ++ interests ++
    ", here are 5 recommended locations:\n\n1. Barcelona, Spain - Great climate for outdoor activities\n2. Vancouver, Canada - Perfect for nature lovers  \n3. Sydney, Australia - Ideal for beach and city experiences\n4. Tokyo, Japan - Fascinating weather patterns and seasons\n5. Reykjavik, Iceland - Unique Arctic weather phenomena"

/-- Observable outcome of a suggestions request. -/
structure SuggestionsResult where
  status : Nat
  suggestions : Option String
  error : Option String
  cache : List (String × AIEntry)
deriving Repr, DecidableEq

/-- `getLocationSuggestions`. -/
def getLocationSuggestions (env : GeminiEnv) (cache : List (String × AIEntry))
    (now : Int) (currentLocations : Option (List String))
    (interests : Option String) : SuggestionsResult :=
  match interests with
  | none => ⟨400, none, some "Interests are required", cache⟩
  | some ints =>
    if ints = "" then ⟨400, none, some "Interests are required", cache⟩
    else
      let cacheKey :=
        getCacheKey "suggestions" (jsonSuggestionsBody currentLocations ints)
      match getCachedResponse cache now cacheKey with
      | some cachedResponse => ⟨200, some cachedResponse, none, cache⟩
      | none =>
        match env.gemini (suggestionsPrompt currentLocations ints) 400 with
        | Except.ok suggestions =>
          ⟨200, some suggestions, none, setCachedResponse cache now cacheKey suggestions⟩
        | Except.error _ => ⟨200, some (suggestionsFallback ints), none, cache⟩

/-! #### POST /api/weather/ai/trivia -/

/-- The trivia prompt sent to the generative provider. -/
def triviaPrompt (location : String) (w : OWMWeather) : String :=
  "Generate an interesting weather fact or trivia about " ++ location ++
    ". Current weather: " ++ numStr w.temp ++ "°C, " ++ w.description ++
    ".\n\nPlease provide a fascinating, educational weather fact that could be about:\n- Historical weather events in this location\n- Unique climate features of this area\n- Interesting meteorological phenomena \n- Record temperatures or weather events\n- How geography affects weather there\n\nMake it engaging and surprising! Keep it to 2-3 sentences."

/-- The trivia fallback served when the provider call fails. -/
def triviaFallback (location : String) (w : OWMWeather) : String :=
  location ++ " is currently experiencing " ++ w.description ++ " at " ++
    numStr w.temp ++
    "°C. Did you know that weather patterns can vary significantly even within the same city due to local geography and urban heat effects?"

/-- Observable outcome of a trivia request: the `trivia` and `weather` body
fields are each present or absent. -/
structure TriviaResult where
  status : Nat
  trivia : Option String
  weather : Option OWMWeather
  error : Option String
  cache : List (String × AIEntry)
deriving Repr, DecidableEq

/-- `generateWeatherTrivia`. -/
def generateWeatherTrivia (env : GeminiEnv) (cache : List (String × AIEntry))
    (now : Int) (location : Option String) : TriviaResult :=
  match location with
  | none => ⟨400, none, none, some "Location is required", cache⟩
  | some loc =>
    if loc = "" then ⟨400, none, none, some "Location is required", cache⟩
    else
      let cacheKey := getCacheKey "trivia" (jsonStr loc)
      match getCachedResponse cache now cacheKey with
      | some cachedResponse => ⟨200, some cachedResponse, none, none, cache⟩
      | none =>
        match env.weather loc with
        | none =>
          ⟨400, none, none, some ("Unable to fetch weather data for " ++ loc), cache⟩
        | some weatherData =>
          match env.gemini (triviaPrompt loc weatherData) 200 with
          | Except.ok trivia =>
            ⟨200, some trivia, some weatherData, none,
              setCachedResponse cache now cacheKey trivia⟩
          | Except.error _ =>
            ⟨200, some (triviaFallback loc weatherData), some weatherData, none, cache⟩

end GeminiAIController

/-! ### Widget controller and mongoose model

The duplicate check in `createWidget` runs
`Widget.findOne({ location: { $regex: new RegExp("^" + trimmedLocation + "$", "i") } })`:
the trimmed user input is spliced into a case-insensitive anchored regular
expression without escaping.  The matcher below models the fragment of
ECMAScript regular expressions consisting of literal characters, the `.`
wildcard, and the `+` / `*` quantifiers.  `classifyRegex` sorts every
pattern into three classes: patterns inside the modelled fragment (parsed
into tokens), patterns that provably make the `RegExp` constructor throw a
`SyntaxError` (a quantifier with nothing to repeat, an unmatched `)`, a `(`
with no `)` anywhere after it, a `[` with no `]` anywhere after it) — on
these the controller's catch-all returns 500 — and the remaining patterns
(escapes, character classes, closed groups, alternation, inner anchors,
`?`), whose regex semantics the model does not interpret. -/

/-- A regex token: a literal character or the `.` wildcard. -/
inductive RTok where
  | lit (c : Char)
  | dot
deriving Repr, DecidableEq

/-- A quantifier attached to a token: exactly one, `+` (one or more), or
`*` (zero or more). -/
inductive RQuant where
  | one
  | plus
  | star
deriving Repr, DecidableEq

/-- Metacharacters of ECMAScript regex syntax whose semantics the matcher
does not model (besides `.`, `+`, `*`, which it does, and `(`, `)`, `[`,
which `classifyRegex` examines separately). -/
def unmodelledMeta : List Char :=
  [']', '\x7b', '\x7d', '\\', '|', '?', '^', '$']

/-- Classification of the pattern body spliced between `^` and `$`. -/
inductive RegexParse where
  /-- The pattern lies in the modelled fragment and parses to these tokens. -/
  | parsed (toks : List (RTok × RQuant))
  /-- The `RegExp` constructor provably throws a `SyntaxError`. -/
  | invalid
  /-- A pattern outside the modelled fragment, left undecided. -/
  | unmodelled
deriving Repr, DecidableEq

/-- Classify the pattern body, scanning left to right.

The `invalid` verdicts are each backed by ECMAScript syntax: a `+` or `*`
at the start of the scan has nothing to repeat (the scan position only ever
sits at the start of the body or directly after a quantifier, and `a++`,
`a+*`, … are also syntax errors); a `)` here is unmatched, since every
character already consumed was a literal, a `.` or a quantifier, none of
which opens a group; a group opened by `(` can only be terminated by a
later `)` character, so its absence from the rest of the pattern is fatal,
and likewise a character class opened by `[` needs a later `]`.  A `?`
cannot be classified the same way because directly after a quantifier it is
a valid lazy modifier, so it is left `unmodelled`. -/
def classifyRegex : List Char → RegexParse
  | [] => RegexParse.parsed []
  | [c] =>
    if c = '+' ∨ c = '*' ∨ c = '(' ∨ c = ')' ∨ c = '[' then RegexParse.invalid
    else if c ∈ unmodelledMeta then RegexParse.unmodelled
    else RegexParse.parsed [(if c = '.' then RTok.dot else RTok.lit c, RQuant.one)]
  | c :: q :: rest =>
    if c = '+' ∨ c = '*' ∨ c = ')' then RegexParse.invalid
    else if c = '(' then
      if ')' ∈ q :: rest then RegexParse.unmodelled else RegexParse.invalid
    else if c = '[' then
      if ']' ∈ q :: rest then RegexParse.unmodelled else RegexParse.invalid
    else if c ∈ unmodelledMeta then RegexParse.unmodelled
    else
      let tok := if c = '.' then RTok.dot else RTok.lit c
      if q = '+' then
        match classifyRegex rest with
        | RegexParse.parsed ps => RegexParse.parsed ((tok, RQuant.plus) :: ps)
        | r => r
      else if q = '*' then
        match classifyRegex rest with
        | RegexParse.parsed ps => RegexParse.parsed ((tok, RQuant.star) :: ps)
        | r => r
      else
        match classifyRegex (q :: rest) with
        | RegexParse.parsed ps => RegexParse.parsed ((tok, RQuant.one) :: ps)
        | r => r

/-- Parse the body spliced between `^` and `$` into quantified tokens;
`none` when the pattern falls outside the modelled fragment (whether a
syntax error or merely unmodelled). -/
def parseRegex (l : List Char) : Option (List (RTok × RQuant)) :=
  match classifyRegex l with
  | RegexParse.parsed toks => some toks
  | _ => none

/-- Does a token match one character, under the `i` flag (case-insensitive)? -/
def tokMatches (t : RTok) (c : Char) : Bool :=
  match t with
  | RTok.dot => true
  | RTok.lit l => l.toLower = c.toLower

/-- Backtracking matcher, with an explicit fuel argument to make the
recursion structural: every recursive call strictly decreases
`ps.length + cs.length`, so the fuel supplied by `rxMatch` never runs
out. -/
def rxMatchAux : Nat → List (RTok × RQuant) → List Char → Bool
  | 0, _, _ => false
  | _ + 1, [], [] => true
  | _ + 1, [], _ :: _ => false
  | _ + 1, (_, RQuant.one) :: _, [] => false
  | fuel + 1, (t, RQuant.one) :: ps, c :: cs =>
    tokMatches t c && rxMatchAux fuel ps cs
  | _ + 1, (_, RQuant.plus) :: _, [] => false
  | fuel + 1, (t, RQuant.plus) :: ps, c :: cs =>
    tokMatches t c && rxMatchAux fuel ((t, RQuant.star) :: ps) cs
  | fuel + 1, (t, RQuant.star) :: ps, cs =>
    rxMatchAux fuel ps cs ||
      (match cs with
       | [] => false
       | c :: cs2 => tokMatches t c && rxMatchAux fuel ((t, RQuant.star) :: ps) cs2)

/-- Does the token sequence match the whole character list (the pattern is
anchored by `^` and `$`)? -/
def rxMatch (ps : List (RTok × RQuant)) (cs : List Char) : Bool :=
  rxMatchAux (ps.length + cs.length + 1) ps cs

/-- The anchored case-insensitive test
`new RegExp("^" + pattern + "$", "i").test(text)`, within the modelled
fragment. -/
def regexTestCI (toks : List (RTok × RQuant)) (text : String) : Bool :=
  rxMatch toks text.data

/-- A possible value of the `location` field of a JSON request body: a
string, or some non-string value. -/
inductive BodyVal where
  | str (s : String)
  | nonString
deriving Repr, DecidableEq

/-- A persisted widget record (`_id` and the `timestamps: true` fields are
assigned by the store on save). -/
structure Widget where
  id : String
  location : String
  createdAt : Int
  updatedAt : Int
deriving Repr, DecidableEq

/-- Observable outcome of a widget-create request: HTTP status, the returned
widget (on 201), and the store contents afterwards. -/
structure CreateResult where
  status : Nat
  widget : Option Widget
  store : List Widget
deriving Repr, DecidableEq

/-- `WidgetController.createWidget`, backed by a list of persisted widgets.
`newId` and `now` stand for the id and timestamps the store would assign.
When the trimmed location does not form a valid regular expression, the
`new RegExp(...)` call throws a `SyntaxError` inside the handler's `try`
block; the catch-all sees an error whose name is not `ValidationError` and
responds 500.  When the pattern is valid but outside the modelled regex
fragment the model returns `none` (undecided).  Mongoose schema validation
(`minlength: 2`, `maxlength: 100` on the trimmed string) rejects with a
`ValidationError`, which the controller maps to status 400. -/
def createWidget (store : List Widget) (newId : String) (now : Int)
    (location : Option BodyVal) : Option CreateResult :=
  match location with
  | none => some ⟨400, none, store⟩
  | some BodyVal.nonString => some ⟨400, none, store⟩
  | some (BodyVal.str s) =>
    if s = "" ∨ jsLength (jsTrim s) = 0 then some ⟨400, none, store⟩
    else
      let trimmedLocation := jsTrim s
      match classifyRegex trimmedLocation.data with
      | RegexParse.invalid => some ⟨500, none, store⟩
      | RegexParse.unmodelled => none
      | RegexParse.parsed toks =>
        match store.find? (fun w => regexTestCI toks w.location) with
        | some _ => some ⟨409, none, store⟩
        | none =>
          if 2 ≤ jsLength trimmedLocation ∧ jsLength trimmedLocation ≤ 100 then
            let w : Widget := ⟨newId, trimmedLocation, now, now⟩
            some ⟨201, some w, store ++ [w]⟩
          else
            some ⟨400, none, store⟩

/-! ### Helper lemmas -/

theorem mapLookup_mapSet_self {α : Type} (l : List (String × α)) (k : String)
    (v : α) : mapLookup (mapSet l k v) k = some v := by
  induction l with
  | nil => simp [mapSet, mapLookup]
  | cons hd tl ih =>
    obtain ⟨k', v'⟩ := hd
    by_cases h : k' = k
    · simp [mapSet, h, mapLookup]
    · simp [mapSet, h, mapLookup, ih]

theorem mapLookup_mapDelete_self {α : Type} (l : List (String × α))
    (k : String) (h : (l.map Prod.fst).Nodup) :
    mapLookup (mapDelete l k) k = none := by
  induction l with
  | nil => simp [mapDelete, mapLookup]
  | cons hd tl ih =>
    obtain ⟨k', v'⟩ := hd
    simp only [List.map_cons, List.nodup_cons] at h
    by_cases hk : k' = k
    · subst hk
      simp only [mapDelete, if_pos rfl]
      -- k does not occur among the tail keys, so lookup in the tail misses
      clear ih
      induction tl with
      | nil => simp [mapLookup]
      | cons hd2 tl2 ih2 =>
        obtain ⟨k2, v2⟩ := hd2
        simp only [List.map_cons, List.mem_cons, List.nodup_cons] at h
        have hk2 : k2 ≠ k' := fun he => h.1 (Or.inl he.symm)
        simp only [mapLookup, if_neg hk2]
        exact ih2 ⟨fun hm => h.1 (Or.inr hm), h.2.2⟩
    · simp only [mapDelete, if_neg hk, mapLookup, if_neg hk]
      exact ih h.2


/-! ### Claim C4 -/

/-- C4: for every key and every cache state satisfying the Map invariant
(at most one binding per key): if no entry for the key is present, `get`
returns `none` and leaves the state unchanged; if an entry is present whose
age exceeds the configured duration, `get` removes it and returns `none`,
and a subsequent `has` (at any time) returns `false`; if an entry is present
and not expired, `get` returns its stored value with the state unchanged. -/
theorem c4_cache_get_spec {T : Type} (s : CacheService T) (now : Int)
    (k : String) (hnodup : (s.cache.map Prod.fst).Nodup) :
    (mapLookup s.cache k = none → s.get now k = (none, s)) ∧
    (∀ item, mapLookup s.cache k = some item →
      now - item.timestamp > s.cacheDuration →
      (s.get now k).1 = none ∧
      mapLookup (s.get now k).2.cache k = none ∧
      ∀ now2, (s.get now k).2.has now2 k = (false, (s.get now k).2)) ∧
    (∀ item, mapLookup s.cache k = some item →
      ¬now - item.timestamp > s.cacheDuration →
      s.get now k = (some item.data, s)) := by
  refine ⟨fun h => ?_, fun item h hexp => ?_, fun item h hfresh => ?_⟩
  · simp [CacheService.get, h]
  · have hget : s.get now k = (none, { s with cache := mapDelete s.cache k }) := by
      simp [CacheService.get, h, CacheService.isExpired, hexp]
    refine ⟨by simp [hget], ?_, ?_⟩
    · simp only [hget]
      exact mapLookup_mapDelete_self s.cache k hnodup
    · intro now2
      simp only [hget]
      simp [CacheService.has, mapLookup_mapDelete_self s.cache k hnodup]
  · simp [CacheService.get, h, CacheService.isExpired, hfresh]

/-- Witness for C4: a cache holding an entry of age 60 with duration 50;
`get` evicts it, and `has` then reports `false`. -/
theorem c4_cache_get_spec_witness :
    (CacheService.get (⟨[("a", ⟨7, 0, "a"⟩)], 50⟩ : CacheService Nat) 60 "a").1
        = none ∧
    mapLookup
        (CacheService.get (⟨[("a", ⟨7, 0, "a"⟩)], 50⟩ : CacheService Nat) 60
          "a").2.cache "a" = none ∧
    (CacheService.get (⟨[("a", ⟨7, 0, "a"⟩)], 50⟩ : CacheService Nat) 60
          "a").2.has 61 "a"
      = (false,
          (CacheService.get (⟨[("a", ⟨7, 0, "a"⟩)], 50⟩ : CacheService Nat) 60
            "a").2) := by
  have h := c4_cache_get_spec (⟨[("a", ⟨7, 0, "a"⟩)], 50⟩ : CacheService Nat)
    60 "a" (by decide)
  have h2 := h.2.1 ⟨7, 0, "a"⟩ (by decide) (by decide)
  exact ⟨h2.1, h2.2.1, h2.2.2 61⟩

/-! ### Claim C5 -/

/-- C5: the sweep removes exactly the entries whose age exceeds the
configured duration: an entry survives `clearExpired` iff it was present and
not expired, the surviving entries are an unchanged (in-order) sublist of
the original ones, and if every present entry is already past expiry the
sweep leaves no entries. -/
theorem c5_clearExpired_spec {T : Type} (s : CacheService T) (now : Int) :
    (∀ p : String × CachedItem T,
      p ∈ (s.clearExpired now).cache ↔
        p ∈ s.cache ∧ ¬now - p.2.timestamp > s.cacheDuration) ∧
    (s.clearExpired now).cache.Sublist s.cache ∧
    ((∀ p ∈ s.cache, now - p.2.timestamp > s.cacheDuration) →
      (s.clearExpired now).cache = []) := by
  have hmem : ∀ l : List (String × CachedItem T),
      ∀ p : String × CachedItem T,
      p ∈ CacheService.clearExpiredList now s.cacheDuration l ↔
        p ∈ l ∧ ¬now - p.2.timestamp > s.cacheDuration := by
    intro l
    induction l with
    | nil => simp [CacheService.clearExpiredList]
    | cons hd tl ih =>
      obtain ⟨k, item⟩ := hd
      intro p
      by_cases hexp : now - item.timestamp > s.cacheDuration
      · simp only [CacheService.clearExpiredList, if_pos hexp, ih,
          List.mem_cons]
        constructor
        · exact fun hp => ⟨Or.inr hp.1, hp.2⟩
        · rintro ⟨hp | hp, hfresh⟩
          · exact absurd (hp ▸ hexp) hfresh
          · exact ⟨hp, hfresh⟩
      · simp only [CacheService.clearExpiredList, if_neg hexp, List.mem_cons,
          ih]
        constructor
        · rintro (hp | hp)
          · exact ⟨Or.inl hp, hp ▸ hexp⟩
          · exact ⟨Or.inr hp.1, hp.2⟩
        · rintro ⟨hp | hp, hfresh⟩
          · exact Or.inl hp
          · exact Or.inr ⟨hp, hfresh⟩
  have hsub : ∀ l : List (String × CachedItem T),
      (CacheService.clearExpiredList now s.cacheDuration l).Sublist l := by
    intro l
    induction l with
    | nil => simp [CacheService.clearExpiredList]
    | cons hd tl ih =>
      obtain ⟨k, item⟩ := hd
      by_cases hexp : now - item.timestamp > s.cacheDuration
      · simp only [CacheService.clearExpiredList, if_pos hexp]
        exact ih.cons (k, item)
      · simp only [CacheService.clearExpiredList, if_neg hexp]
        exact ih.cons₂ (k, item)
  refine ⟨hmem s.cache, hsub s.cache, fun hall => ?_⟩
  show CacheService.clearExpiredList now s.cacheDuration s.cache = []
  rw [List.eq_nil_iff_forall_not_mem]
  intro p hp
  have := (hmem s.cache p).1 hp
  exact absurd (hall p this.1) this.2

/-- Witness for C5: a cache whose two entries are both past expiry; the
sweep leaves zero entries. -/
theorem c5_clearExpired_spec_witness :
    (CacheService.clearExpired
        (⟨[("a", ⟨1, 0, "a"⟩), ("b", ⟨2, 10, "b"⟩)], 5⟩ : CacheService Nat)
        100).cache = [] := by
  exact (c5_clearExpired_spec
    (⟨[("a", ⟨1, 0, "a"⟩), ("b", ⟨2, 10, "b"⟩)], 5⟩ : CacheService Nat)
    100).2.2 (by decide)

/-! ### Claim C6 -/

/-- C6: the icon is chosen by the first matching inclusive upper-bound
threshold in ascending order (exactly 0 → clear; ≤3 → partly cloudy;
≤48 → fog; ≤67 → rain; ≤77 → snow; ≤82 → rain showers; ≤99 → thunderstorm;
otherwise the default "unknown" icon), and the description comes from an
exact-match table (0 → "Clear sky", 96 → "Thunderstorm with hail") with
every unlisted code — e.g. 10, which takes the fog icon — described as
"Unknown". -/
theorem c6_weather_code_mapping :
    (∀ c : Int, c = 0 → WeatherService.getWeatherIcon c = "‚òÄÔ∏è") ∧
    (∀ c : Int, c ≠ 0 → c ≤ 3 → WeatherService.getWeatherIcon c = "‚õÖ") ∧
    (∀ c : Int, ¬c ≤ 3 → c ≤ 48 → WeatherService.getWeatherIcon c = "üå´Ô∏è") ∧
    (∀ c : Int, ¬c ≤ 48 → c ≤ 67 → WeatherService.getWeatherIcon c = "üåßÔ∏è") ∧
    (∀ c : Int, ¬c ≤ 67 → c ≤ 77 → WeatherService.getWeatherIcon c = "üå®Ô∏è") ∧
    (∀ c : Int, ¬c ≤ 77 → c ≤ 82 → WeatherService.getWeatherIcon c = "üå¶Ô∏è") ∧
    (∀ c : Int, ¬c ≤ 82 → c ≤ 99 → WeatherService.getWeatherIcon c = "‚õàÔ∏è") ∧
    (∀ c : Int, ¬c ≤ 99 → WeatherService.getWeatherIcon c = "üå§Ô∏è") ∧
    WeatherService.getWeatherDescription 0 = "Clear sky" ∧
    WeatherService.getWeatherDescription 96 = "Thunderstorm with hail" ∧
    WeatherService.getWeatherIcon 10 = "üå´Ô∏è" ∧
    WeatherService.getWeatherDescription 10 = "Unknown" ∧
    (∀ c : Int, c ∉ WeatherService.describedCodes →
      WeatherService.getWeatherDescription c = "Unknown") := by
  refine ⟨?_, ?_, ?_, ?_, ?_, ?_, ?_, ?_, by decide, by decide, by decide,
    by decide, ?_⟩
  · intro c h1
    simp [WeatherService.getWeatherIcon, h1]
  · intro c h1 h2
    simp [WeatherService.getWeatherIcon, h1, h2]
  · intro c h1 h2
    have h0 : ¬c = 0 := by omega
    simp [WeatherService.getWeatherIcon, h0, h1, h2]
  · intro c h1 h2
    have h0 : ¬c = 0 := by omega
    have h3 : ¬c ≤ 3 := by omega
    simp [WeatherService.getWeatherIcon, h0, h3, h1, h2]
  · intro c h1 h2
    have h0 : ¬c = 0 := by omega
    have h3 : ¬c ≤ 3 := by omega
    have h48 : ¬c ≤ 48 := by omega
    simp [WeatherService.getWeatherIcon, h0, h3, h48, h1, h2]
  · intro c h1 h2
    have h0 : ¬c = 0 := by omega
    have h3 : ¬c ≤ 3 := by omega
    have h48 : ¬c ≤ 48 := by omega
    have h67 : ¬c ≤ 67 := by omega
    simp [WeatherService.getWeatherIcon, h0, h3, h48, h67, h1, h2]
  · intro c h1 h2
    have h0 : ¬c = 0 := by omega
    have h3 : ¬c ≤ 3 := by omega
    have h48 : ¬c ≤ 48 := by omega
    have h67 : ¬c ≤ 67 := by omega
    have h77 : ¬c ≤ 77 := by omega
    simp [WeatherService.getWeatherIcon, h0, h3, h48, h67, h77, h1, h2]
  · intro c h1
    have h0 : ¬c = 0 := by omega
    have h3 : ¬c ≤ 3 := by omega
    have h48 : ¬c ≤ 48 := by omega
    have h67 : ¬c ≤ 67 := by omega
    have h77 : ¬c ≤ 77 := by omega
    have h82 : ¬c ≤ 82 := by omega
    simp [WeatherService.getWeatherIcon, h0, h3, h48, h67, h77, h82, h1]
  · intro c hc
    simp only [WeatherService.describedCodes, List.mem_cons,
      List.mem_singleton, not_or] at hc
    obtain ⟨e0, e1, e2, e3, e45, e48, e51, e53, e55, e61, e63, e65, e71,
      e73, e75, e80, e81, e82, e95, e96, e99⟩ := hc
    simp [WeatherService.getWeatherDescription, e0, e1, e2, e3, e45, e48,
      e51, e53, e55, e61, e63, e65, e71, e73, e75, e80, e81, e82, e95, e96,
      e99]

/-- Witness for C6: code 50 falls through to the rain threshold (≤67), code
7 has no table entry and reads "Unknown". -/
theorem c6_weather_code_mapping_witness :
    WeatherService.getWeatherIcon 50 = "üåßÔ∏è" ∧
    WeatherService.getWeatherDescription 7 = "Unknown" := by
  refine ⟨c6_weather_code_mapping.2.2.2.1 50 (by decide) (by decide), ?_⟩
  exact c6_weather_code_mapping.2.2.2.2.2.2.2.2.2.2.2.2 7 (by decide)

/-! ### Claim C7 -/

theorem cache_get_snd_duration {T : Type} (s : CacheService T) (now : Int)
    (key : String) : (s.get now key).2.cacheDuration = s.cacheDuration := by
  unfold CacheService.get
  cases mapLookup s.cache key with
  | none => rfl
  | some item =>
    simp only []
    split <;> rfl

theorem cache_get_some {T : Type} {s : CacheService T} {now : Int}
    {key : String} {v : T} {s1 : CacheService T}
    (h : s.get now key = (some v, s1)) :
    s1 = s ∧ ∃ item : CachedItem T, mapLookup s.cache key = some item ∧
      item.data = v ∧ s.isExpired now item = false := by
  unfold CacheService.get at h
  cases hl : mapLookup s.cache key with
  | none => rw [hl] at h; simp at h
  | some item =>
    rw [hl] at h
    cases hexp : s.isExpired now item with
    | true => simp [hexp] at h
    | false =>
      simp only [hexp, Bool.false_eq_true, if_false, Prod.mk.injEq,
        Option.some.injEq] at h
      exact ⟨h.2.symm, item, rfl, h.1, hexp⟩

/-- A successful lookup leaves (or finds) an entry with exactly the returned
snapshot under the normalized key, and does not change the configured
duration. -/
theorem weather_lookup_ok_lookup {env : WeatherEnv}
    {s : CacheService WeatherData} {now : Int} {location : String}
    {w : WeatherData} {s2 : CacheService WeatherData} {n : Nat}
    (h : WeatherService.getWeatherForLocation env s now location
        = (Except.ok w, s2, n)) :
    s2.cacheDuration = s.cacheDuration ∧
    ∃ item : CachedItem WeatherData,
      mapLookup s2.cache (WeatherService.normalizeKey location) = some item ∧
      item.data = w := by
  unfold WeatherService.getWeatherForLocation at h
  rcases hget : CacheService.get s now (WeatherService.normalizeKey location)
    with ⟨cached, s1⟩
  rw [hget] at h
  have hdur : s1.cacheDuration = s.cacheDuration := by
    have hd := cache_get_snd_duration s now (WeatherService.normalizeKey location)
    rw [hget] at hd
    exact hd
  cases cached with
  | some c =>
    obtain ⟨hs1, item, hitem, hdata, _⟩ := cache_get_some hget
    simp only [Prod.mk.injEq, Except.ok.injEq] at h
    obtain ⟨hw, hs2, -⟩ := h
    subst hs2
    subst hs1
    exact ⟨rfl, item, hitem, by rw [hdata, hw]⟩
  | none =>
    dsimp only at h
    cases hg : env.geocode location with
    | error e => rw [hg] at h; simp at h
    | ok g =>
      rw [hg] at h
      dsimp only at h
      cases hf : env.forecast g.latitude g.longitude with
      | error e => rw [hf] at h; simp at h
      | ok current =>
        rw [hf] at h
        dsimp only at h
        simp only [Prod.mk.injEq, Except.ok.injEq] at h
        obtain ⟨hw, hs2, -⟩ := h
        subst hs2
        refine ⟨by simpa [CacheService.set] using hdur,
          ⟨w, now, WeatherService.normalizeKey location⟩, ?_, rfl⟩
        simp only [CacheService.set]
        rw [← hw]
        exact mapLookup_mapSet_self s1.cache (WeatherService.normalizeKey location) _

/-- C7: two location strings that agree after lower-casing and trimming use
the same weather cache key; after a successful lookup of one, a lookup of
the other while the stored entry is unexpired is a cache hit that returns
the cached snapshot, leaves the state unchanged, and performs no geocoding
or forecast network call. -/
theorem c7_normalized_cache_key (env env2 : WeatherEnv)
    (s : CacheService WeatherData) (now : Int) (l1 l2 : String)
    (w : WeatherData) (s2 : CacheService WeatherData) (n : Nat)
    (hkey : jsTrim (jsToLower l1) = jsTrim (jsToLower l2))
    (h1 : WeatherService.getWeatherForLocation env s now l1
        = (Except.ok w, s2, n)) :
    WeatherService.normalizeKey l1 = WeatherService.normalizeKey l2 ∧
    ∀ now2 item,
      mapLookup s2.cache (WeatherService.normalizeKey l1) = some item →
      ¬now2 - item.timestamp > s2.cacheDuration →
      WeatherService.getWeatherForLocation env2 s2 now2 l2
        = (Except.ok w, s2, 0) := by
  have hk : WeatherService.normalizeKey l1 = WeatherService.normalizeKey l2 :=
    hkey
  refine ⟨hk, fun now2 item hitem hfresh => ?_⟩
  obtain ⟨hdur, item0, hitem0, hdata⟩ := weather_lookup_ok_lookup h1
  have heq : item = item0 := by
    rw [hitem] at hitem0
    exact Option.some.inj hitem0
  have hget : CacheService.get s2 now2 (WeatherService.normalizeKey l1)
      = (some item.data, s2) := by
    unfold CacheService.get
    rw [hitem]
    simp [CacheService.isExpired, hfresh]
  unfold WeatherService.getWeatherForLocation
  rw [← hk, hget]
  dsimp only
  rw [heq, hdata]

/-- Witness for C7: a fresh lookup of "  PARIS " stores the snapshot under
the key "paris"; a later lookup of "paris " against an environment whose
providers all fail still returns the cached snapshot, with zero network
calls. -/
theorem c7_normalized_cache_key_witness :
    WeatherService.getWeatherForLocation
        ⟨fun _ => Except.error "down", fun _ _ => Except.error "down"⟩
        ⟨[("paris",
            ⟨⟨21, "Clear sky", 50, 10, "‚òÄÔ∏è", "Clear sky", "Paris",
                "France"⟩,
              0, "paris"⟩)],
          300000⟩
        100 "paris "
      = (Except.ok
          ⟨21, "Clear sky", 50, 10, "‚òÄÔ∏è", "Clear sky", "Paris", "France"⟩,
        ⟨[("paris",
            ⟨⟨21, "Clear sky", 50, 10, "‚òÄÔ∏è", "Clear sky", "Paris",
                "France"⟩,
              0, "paris"⟩)],
          300000⟩,
        0) := by
  exact (c7_normalized_cache_key
    ⟨fun _ => Except.ok ⟨10, 20, "Paris", "France"⟩,
      fun _ _ => Except.ok ⟨21, 50, 0, 10⟩⟩
    ⟨fun _ => Except.error "down", fun _ _ => Except.error "down"⟩
    ⟨[], 300000⟩ 0 "  PARIS " "paris "
    ⟨21, "Clear sky", 50, 10, "‚òÄÔ∏è", "Clear sky", "Paris", "France"⟩
    ⟨[("paris",
        ⟨⟨21, "Clear sky", 50, 10, "‚òÄÔ∏è", "Clear sky", "Paris", "France"⟩,
          0, "paris"⟩)],
      300000⟩
    2 (by decide) (by decide)).2 100
    ⟨⟨21, "Clear sky", 50, 10, "‚òÄÔ∏è", "Clear sky", "Paris", "France"⟩, 0,
      "paris"⟩
    (by decide) (by decide)

/-! ### Claim C8 -/

theorem char_toNat_injective {a b : Char} (h : a.toNat = b.toNat) : a = b := by
  have hc := congrArg Char.ofNat h
  rwa [Char.ofNat_toNat, Char.ofNat_toNat] at hc

theorem charsLe_total (as bs : List Char) :
    charsLe as bs = true ∨ charsLe bs as = true := by
  induction as generalizing bs with
  | nil => left; rfl
  | cons a as ih =>
    cases bs with
    | nil => right; rfl
    | cons b bs =>
      by_cases hab : a = b
      · subst hab
        simp only [charsLe, if_pos rfl]
        exact ih bs
      · have hn : a.toNat ≠ b.toNat := fun he => hab (char_toNat_injective he)
        simp only [charsLe, if_neg hab, if_neg (Ne.symm hab)]
        rcases Nat.lt_or_ge a.toNat b.toNat with hl | hl
        · left; exact decide_eq_true hl
        · right; exact decide_eq_true (by omega)

theorem charsLe_trans {as bs cs : List Char} (h1 : charsLe as bs = true)
    (h2 : charsLe bs cs = true) : charsLe as cs = true := by
  induction as generalizing bs cs with
  | nil => rfl
  | cons a as ih =>
    cases bs with
    | nil => simp [charsLe] at h1
    | cons b bs =>
      cases cs with
      | nil => simp [charsLe] at h2
      | cons c cs =>
        by_cases hab : a = b
        · subst hab
          simp only [charsLe, if_pos rfl] at h1
          by_cases hbc : a = c
          · subst hbc
            simp only [charsLe, if_pos rfl] at h2 ⊢
            exact ih h1 h2
          · simp only [charsLe, if_neg hbc] at h2 ⊢
            exact h2
        · by_cases hbc : b = c
          · subst hbc
            simp only [charsLe, if_neg hab] at h1 ⊢
            exact h1
          · simp only [charsLe, if_neg hab] at h1
            simp only [charsLe, if_neg hbc] at h2
            have x1 := of_decide_eq_true h1
            have x2 := of_decide_eq_true h2
            have hac : a ≠ c := by
              intro he
              subst he
              omega
            simp only [charsLe, if_neg hac]
            exact decide_eq_true (by omega)

theorem charsLe_antisymm {as bs : List Char} (h1 : charsLe as bs = true)
    (h2 : charsLe bs as = true) : as = bs := by
  induction as generalizing bs with
  | nil =>
    cases bs with
    | nil => rfl
    | cons b bs => simp [charsLe] at h2
  | cons a as ih =>
    cases bs with
    | nil => simp [charsLe] at h1
    | cons b bs =>
      by_cases hab : a = b
      · subst hab
        simp only [charsLe, if_pos rfl] at h1 h2
        rw [ih h1 h2]
      · simp only [charsLe, if_neg hab] at h1
        simp only [charsLe, if_neg (Ne.symm hab)] at h2
        have x1 := of_decide_eq_true h1
        have x2 := of_decide_eq_true h2
        exact absurd x2 (by omega)

theorem string_data_injective {a b : String} (h : a.data = b.data) : a = b := by
  cases a
  cases b
  simp only at h
  rw [h]

/-- Permutations of a string array sort identically under the default
JavaScript comparison. -/
theorem jsSort_perm_eq {locs1 locs2 : List String} (hperm : locs1.Perm locs2) :
    GeminiAIController.jsSort locs1 = GeminiAIController.jsSort locs2 := by
  haveI hto : IsTotal String (fun a b => jsLe a b = true) :=
    ⟨fun a b => charsLe_total a.data b.data⟩
  haveI htr : IsTrans String (fun a b => jsLe a b = true) :=
    ⟨fun _ _ _ hab hbc => charsLe_trans hab hbc⟩
  haveI han : IsAntisymm String (fun a b => jsLe a b = true) :=
    ⟨fun _ _ hab hba => string_data_injective (charsLe_antisymm hab hba)⟩
  exact List.eq_of_perm_of_sorted
    ((List.perm_insertionSort _ locs1).trans
      (hperm.trans (List.perm_insertionSort _ locs2).symm))
    (List.sorted_insertionSort _ locs1)
    (List.sorted_insertionSort _ locs2)

/-- C8: two summary requests whose `locations` arrays are permutations of
each other compute the same cache key (locations are sorted before
serialization); after a first request is answered by the provider and
cached, a second request with the locations in a different order within the
TTL is a cache hit: it returns the cached summary and does not call the
generative provider. -/
theorem c8_summary_perm_cache_hit (env env2 : GeminiEnv)
    (cache : List (String × AIEntry)) (now now2 : Int)
    (locs1 locs2 : List String) (txt : String)
    (hperm : locs1.Perm locs2)
    (hne : locs1 ≠ [])
    (hmiss : GeminiAIController.getCachedResponse cache now
        (GeminiAIController.getCacheKey "summary"
          (GeminiAIController.jsonArr (GeminiAIController.jsSort locs1)))
      = none)
    (hctx : GeminiAIController.summaryWeatherContext env
        (GeminiAIController.jsSort locs1) ≠ "")
    (hgem : env.gemini
        (GeminiAIController.summaryPrompt
          (GeminiAIController.summaryWeatherContext env
            (GeminiAIController.jsSort locs1))) 300 = Except.ok txt)
    (hfresh : now2 - now < CACHE_TTL) :
    GeminiAIController.getCacheKey "summary"
        (GeminiAIController.jsonArr (GeminiAIController.jsSort locs1))
      = GeminiAIController.getCacheKey "summary"
        (GeminiAIController.jsonArr (GeminiAIController.jsSort locs2)) ∧
    GeminiAIController.generateWeatherSummary env cache now (some locs1)
      = ⟨200, some txt, none, true,
          GeminiAIController.setCachedResponse cache now
            (GeminiAIController.getCacheKey "summary"
              (GeminiAIController.jsonArr (GeminiAIController.jsSort locs1)))
            txt⟩ ∧
    GeminiAIController.generateWeatherSummary env2
        (GeminiAIController.setCachedResponse cache now
          (GeminiAIController.getCacheKey "summary"
            (GeminiAIController.jsonArr (GeminiAIController.jsSort locs1)))
          txt)
        now2 (some locs2)
      = ⟨200, some txt, none, false,
          GeminiAIController.setCachedResponse cache now
            (GeminiAIController.getCacheKey "summary"
              (GeminiAIController.jsonArr (GeminiAIController.jsSort locs1)))
            txt⟩ := by
  have hsorteq : GeminiAIController.jsSort locs1 =
      GeminiAIController.jsSort locs2 := jsSort_perm_eq hperm
  have hlen1 : ¬locs1.length = 0 := by
    simpa [List.length_eq_zero] using hne
  have hlen2 : ¬locs2.length = 0 := by
    rw [← hperm.length_eq]
    exact hlen1
  refine ⟨by rw [hsorteq], ?_, ?_⟩
  · unfold GeminiAIController.generateWeatherSummary
    dsimp only
    rw [if_neg hlen1, hmiss]
    dsimp only
    rw [if_neg hctx, hgem]
  · unfold GeminiAIController.generateWeatherSummary
    dsimp only
    rw [if_neg hlen2, ← hsorteq]
    have hhit : GeminiAIController.getCachedResponse
        (GeminiAIController.setCachedResponse cache now
          (GeminiAIController.getCacheKey "summary"
            (GeminiAIController.jsonArr (GeminiAIController.jsSort locs1)))
          txt)
        now2
        (GeminiAIController.getCacheKey "summary"
          (GeminiAIController.jsonArr (GeminiAIController.jsSort locs1)))
      = some txt := by
      unfold GeminiAIController.getCachedResponse
        GeminiAIController.setCachedResponse
      rw [mapLookup_mapSet_self]
      simp [hfresh]
    rw [hhit]

/-- Witness for C8: a first request for ["b", "a"] stores the provider
summary under the key of the sorted locations; a second request for
["a", "b"] against an environment whose providers all fail returns the
cached summary without calling the provider. -/
theorem c8_summary_perm_cache_hit_witness :
    GeminiAIController.generateWeatherSummary
        ⟨fun _ => none, fun _ _ => Except.error ()⟩
        [("summary-[\"a\",\"b\"]", ⟨"SUM", 0⟩)] 1000 (some ["a", "b"])
      = ⟨200, some "SUM", none, false,
          [("summary-[\"a\",\"b\"]", ⟨"SUM", 0⟩)]⟩ := by
  exact (c8_summary_perm_cache_hit
    ⟨fun l => if l = "a" then some ⟨20, "clear sky", 50⟩ else none,
      fun _ _ => Except.ok "SUM"⟩
    ⟨fun _ => none, fun _ _ => Except.error ()⟩
    [] 0 1000 ["b", "a"] ["a", "b"] "SUM"
    (List.Perm.swap "a" "b" []) (by decide) (by decide) (by decide) rfl
    (by decide)).2.2

/-! ### Claim C1 -/

theorem string_eq_empty_of_length {s : String} (h : s.length = 0) : s = "" :=
  string_data_injective (List.length_eq_zero.mp h)

/-- If the composed summary context is empty, every lookup failed. -/
theorem summaryWeatherContext_empty {env : GeminiEnv} {locs : List String}
    (h : GeminiAIController.summaryWeatherContext env locs = "") :
    ∀ loc ∈ locs, env.weather loc = none := by
  induction locs with
  | nil => intro loc hl; cases hl
  | cons a rest ih =>
    unfold GeminiAIController.summaryWeatherContext at h
    have hlen := congrArg String.length h
    rw [String.length_append] at hlen
    have h0 : ("" : String).length = 0 := rfl
    intro loc hl
    rcases List.mem_cons.mp hl with rfl | hmem
    · cases hwa : env.weather loc with
      | none => rfl
      | some d =>
        rw [hwa] at hlen
        simp only [String.length_append] at hlen
        have h2 : (": " : String).length = 2 := rfl
        omega
    · have hlen2 : (GeminiAIController.summaryWeatherContext env rest).length
          = 0 := by
        omega
      exact ih (string_eq_empty_of_length hlen2) loc hmem

/-- The summary fallback string is never empty (it starts with a fixed
sentence). -/
theorem summaryFallback_ne_empty (n : Nat) (temps : List Int) (ws : String) :
    GeminiAIController.summaryFallback n temps ws ≠ "" := by
  intro h
  unfold GeminiAIController.summaryFallback at h
  have hlen := congrArg String.length h
  simp only [String.length_append] at hlen
  have hW : ("Weather Summary: Average temperature across " : String).length
      = 44 := by decide
  have h0 : ("" : String).length = 0 := rfl
  omega

/-- C1: on every AI endpoint, a request that reaches the generative-provider
call and sees it fail is still answered with HTTP 200 and a deterministic,
locally computed fallback: the chat canned sentence, the summary
average-temperature sentence (non-empty whenever at least one location's
weather fetch succeeded), the suggestions canned five-item list, and the
trivia canned sentence (still carrying the weather data).  The provider
error is never propagated. -/
theorem c1_provider_failure_fallback :
    (∀ (env : GeminiEnv) (cache : List (String × AIEntry)) (now : Int)
        (q : String) (locs : Option (List String)),
      (∀ p maxTokens, env.gemini p maxTokens = Except.error ()) →
      q ≠ "" →
      GeminiAIController.getCachedResponse cache now
        (GeminiAIController.getCacheKey "chat"
          (GeminiAIController.jsonChatBody q locs)) = none →
      GeminiAIController.handleWeatherChat env cache now (some q) locs
        = ⟨200, some (GeminiAIController.chatFallback locs), none, cache⟩) ∧
    (∀ (env : GeminiEnv) (cache : List (String × AIEntry)) (now : Int)
        (locs : List String),
      (∀ p maxTokens, env.gemini p maxTokens = Except.error ()) →
      locs ≠ [] →
      GeminiAIController.getCachedResponse cache now
        (GeminiAIController.getCacheKey "summary"
          (GeminiAIController.jsonArr (GeminiAIController.jsSort locs)))
        = none →
      (∃ loc ∈ locs, (env.weather loc).isSome) →
      GeminiAIController.generateWeatherSummary env cache now (some locs)
        = ⟨200,
            some (GeminiAIController.summaryFallback
              ((GeminiAIController.jsSort locs).filter
                (fun l => (env.weather l).isSome)).length
              ((GeminiAIController.jsSort locs).filterMap
                (fun l => (env.weather l).map OWMWeather.temp))
              (GeminiAIController.summaryWeatherContext env
                (GeminiAIController.jsSort locs))),
            none, true, cache⟩ ∧
      GeminiAIController.summaryFallback
          ((GeminiAIController.jsSort locs).filter
            (fun l => (env.weather l).isSome)).length
          ((GeminiAIController.jsSort locs).filterMap
            (fun l => (env.weather l).map OWMWeather.temp))
          (GeminiAIController.summaryWeatherContext env
            (GeminiAIController.jsSort locs)) ≠ "") ∧
    (∀ (env : GeminiEnv) (cache : List (String × AIEntry)) (now : Int)
        (clocs : Option (List String)) (ints : String),
      (∀ p maxTokens, env.gemini p maxTokens = Except.error ()) →
      ints ≠ "" →
      GeminiAIController.getCachedResponse cache now
        (GeminiAIController.getCacheKey "suggestions"
          (GeminiAIController.jsonSuggestionsBody clocs ints)) = none →
      GeminiAIController.getLocationSuggestions env cache now clocs (some ints)
        = ⟨200, some (GeminiAIController.suggestionsFallback ints), none,
            cache⟩) ∧
    (∀ (env : GeminiEnv) (cache : List (String × AIEntry)) (now : Int)
        (loc : String) (w : OWMWeather),
      (∀ p maxTokens, env.gemini p maxTokens = Except.error ()) →
      loc ≠ "" →
      GeminiAIController.getCachedResponse cache now
        (GeminiAIController.getCacheKey "trivia"
          (GeminiAIController.jsonStr loc)) = none →
      env.weather loc = some w →
      GeminiAIController.generateWeatherTrivia env cache now (some loc)
        = ⟨200, some (GeminiAIController.triviaFallback loc w), some w, none,
            cache⟩) := by
  refine ⟨?_, ?_, ?_, ?_⟩
  · intro env cache now q locs hgem hq hmiss
    unfold GeminiAIController.handleWeatherChat
    dsimp only
    rw [if_neg hq, hmiss]
    dsimp only
    rw [hgem _ 200]
  · intro env cache now locs hgem hne hmiss hsucc
    have hlen : ¬locs.length = 0 := by
      simpa [List.length_eq_zero] using hne
    have hctx : GeminiAIController.summaryWeatherContext env
        (GeminiAIController.jsSort locs) ≠ "" := by
      intro hemp
      obtain ⟨loc, hl, hw⟩ := hsucc
      have hnone := summaryWeatherContext_empty hemp loc
        ((List.mem_insertionSort _).mpr hl)
      rw [hnone] at hw
      simp at hw
    refine ⟨?_, summaryFallback_ne_empty _ _ _⟩
    unfold GeminiAIController.generateWeatherSummary
    dsimp only
    rw [if_neg hlen, hmiss]
    dsimp only
    rw [if_neg hctx, hgem _ 300]
  · intro env cache now clocs ints hgem hints hmiss
    unfold GeminiAIController.getLocationSuggestions
    dsimp only
    rw [if_neg hints, hmiss]
    dsimp only
    rw [hgem _ 400]
  · intro env cache now loc w hgem hloc hmiss hw
    unfold GeminiAIController.generateWeatherTrivia
    dsimp only
    rw [if_neg hloc, hmiss]
    dsimp only
    rw [hw]
    dsimp only
    rw [hgem _ 200]

/-- Witness for C1: with a generative provider that always fails, all four
endpoints answer 200 with their local fallbacks at concrete inputs. -/
theorem c1_provider_failure_fallback_witness :
    GeminiAIController.handleWeatherChat
        ⟨fun l => if l = "a" then some ⟨20, "clear sky", 50⟩ else none,
          fun _ _ => Except.error ()⟩ [] 0 (some "hi") (some ["a", "b"])
      = ⟨200, some (GeminiAIController.chatFallback (some ["a", "b"])), none,
          []⟩ ∧
    GeminiAIController.generateWeatherSummary
        ⟨fun l => if l = "a" then some ⟨20, "clear sky", 50⟩ else none,
          fun _ _ => Except.error ()⟩ [] 0 (some ["b", "a"])
      = ⟨200,
          some "Weather Summary: Average temperature across 1 locations is 20.0°C. a: 20°C, clear sky. ",
          none, true, []⟩ ∧
    GeminiAIController.getLocationSuggestions
        ⟨fun l => if l = "a" then some ⟨20, "clear sky", 50⟩ else none,
          fun _ _ => Except.error ()⟩ [] 0 none (some "hiking")
      = ⟨200, some (GeminiAIController.suggestionsFallback "hiking"), none,
          []⟩ ∧
    GeminiAIController.generateWeatherTrivia
        ⟨fun l => if l = "a" then some ⟨20, "clear sky", 50⟩ else none,
          fun _ _ => Except.error ()⟩ [] 0 (some "a")
      = ⟨200,
          some (GeminiAIController.triviaFallback "a" ⟨20, "clear sky", 50⟩),
          some ⟨20, "clear sky", 50⟩, none, []⟩ := by
  refine ⟨?_, ?_, ?_, ?_⟩
  · exact c1_provider_failure_fallback.1
      ⟨fun l => if l = "a" then some ⟨20, "clear sky", 50⟩ else none,
        fun _ _ => Except.error ()⟩ [] 0 "hi" (some ["a", "b"])
      (fun _ _ => rfl) (by decide) rfl
  · have h := (c1_provider_failure_fallback.2.1
      ⟨fun l => if l = "a" then some ⟨20, "clear sky", 50⟩ else none,
        fun _ _ => Except.error ()⟩ [] 0 ["b", "a"]
      (fun _ _ => rfl) (by decide) rfl ⟨"a", by decide, by decide⟩).1
    rw [h]
    decide
  · exact c1_provider_failure_fallback.2.2.1
      ⟨fun l => if l = "a" then some ⟨20, "clear sky", 50⟩ else none,
        fun _ _ => Except.error ()⟩ [] 0 none "hiking"
      (fun _ _ => rfl) (by decide) rfl
  · exact c1_provider_failure_fallback.2.2.2
      ⟨fun l => if l = "a" then some ⟨20, "clear sky", 50⟩ else none,
        fun _ _ => Except.error ()⟩ [] 0 "a" ⟨20, "clear sky", 50⟩
      (fun _ _ => rfl) (by decide) rfl rfl

/-! ### Claim C2 -/

/-- Counterexample to C2: in the summary endpoint a failed location
contributes nothing to the composed context (no "unavailable" placeholder),
and when every location's lookup fails the request is aborted with 400 —
it does not proceed. -/
theorem c2_counterexample :
    GeminiAIController.generateWeatherSummary
        ⟨fun _ => none, fun _ _ => Except.ok "text"⟩ [] 0 (some ["Berlin"])
      = ⟨400, none, some "No weather data available for provided locations",
          false, []⟩ ∧
    GeminiAIController.summaryWeatherContext
        ⟨fun _ => none, fun _ _ => Except.ok "text"⟩ ["Berlin"] = "" := by
  decide

/-- If every lookup failed, the composed summary context is empty. -/
theorem summaryWeatherContext_all_none {env : GeminiEnv} {locs : List String}
    (h : ∀ loc ∈ locs, env.weather loc = none) :
    GeminiAIController.summaryWeatherContext env locs = "" := by
  induction locs with
  | nil => rfl
  | cons a rest ih =>
    unfold GeminiAIController.summaryWeatherContext
    rw [h a (List.mem_cons_self a rest)]
    rw [ih (fun loc hl => h loc (List.mem_cons_of_mem a hl))]
    rfl

/-- C2 (amended): in the chat endpoint, a failed per-location lookup
contributes the "unavailable" placeholder for that location to the composed
context and the request still proceeds (HTTP 200).  In the summary endpoint,
failed locations are omitted from the composed context instead: the request
proceeds (HTTP 200) when at least one lookup succeeds, but when every
location's lookup fails it is rejected with HTTP 400. -/
theorem c2_amended_per_location_failure :
    (∀ (env : GeminiEnv) (cache : List (String × AIEntry)) (now : Int)
        (q : String) (locs : List String),
      q ≠ "" →
      GeminiAIController.getCachedResponse cache now
        (GeminiAIController.getCacheKey "chat"
          (GeminiAIController.jsonChatBody q (some locs))) = none →
      (GeminiAIController.handleWeatherChat env cache now (some q)
          (some locs)).status = 200 ∧
      ∀ loc ∈ locs, env.weather loc = none →
        GeminiAIController.chatEntry env loc
          = loc ++ ": Weather data unavailable" ∧
        (loc ++ ": Weather data unavailable")
          ∈ locs.map (GeminiAIController.chatEntry env)) ∧
    (∀ (env : GeminiEnv) (cache : List (String × AIEntry)) (now : Int)
        (locs : List String),
      locs ≠ [] →
      GeminiAIController.getCachedResponse cache now
        (GeminiAIController.getCacheKey "summary"
          (GeminiAIController.jsonArr (GeminiAIController.jsSort locs)))
        = none →
      ((∀ loc ∈ locs, env.weather loc = none) →
        GeminiAIController.generateWeatherSummary env cache now (some locs)
          = ⟨400, none,
              some "No weather data available for provided locations", false,
              cache⟩) ∧
      ((∃ loc ∈ locs, (env.weather loc).isSome) →
        (GeminiAIController.generateWeatherSummary env cache now
            (some locs)).status = 200)) := by
  constructor
  · intro env cache now q locs hq hmiss
    constructor
    · unfold GeminiAIController.handleWeatherChat
      dsimp only
      rw [if_neg hq, hmiss]
      dsimp only
      rcases env.gemini (GeminiAIController.chatPrompt q
        (if locs.length > 0
          then GeminiAIController.chatWeatherContext env locs else "")) 200
        with r | r <;> rfl
    · intro loc hl hw
      have hentry : GeminiAIController.chatEntry env loc
          = loc ++ ": Weather data unavailable" := by
        unfold GeminiAIController.chatEntry
        rw [hw]
      exact ⟨hentry, hentry ▸ List.mem_map_of_mem _ hl⟩
  · intro env cache now locs hne hmiss
    have hlen : ¬locs.length = 0 := by
      simpa [List.length_eq_zero] using hne
    constructor
    · intro hall
      have hctx : GeminiAIController.summaryWeatherContext env
          (GeminiAIController.jsSort locs) = "" :=
        summaryWeatherContext_all_none
          (fun loc hl => hall loc ((List.mem_insertionSort _).mp hl))
      unfold GeminiAIController.generateWeatherSummary
      dsimp only
      rw [if_neg hlen, hmiss]
      dsimp only
      rw [if_pos hctx]
    · intro hsucc
      have hctx : GeminiAIController.summaryWeatherContext env
          (GeminiAIController.jsSort locs) ≠ "" := by
        intro hemp
        obtain ⟨loc, hl, hw⟩ := hsucc
        have hnone := summaryWeatherContext_empty hemp loc
          ((List.mem_insertionSort _).mpr hl)
        rw [hnone] at hw
        simp at hw
      unfold GeminiAIController.generateWeatherSummary
      dsimp only
      rw [if_neg hlen, hmiss]
      dsimp only
      rw [if_neg hctx]
      rcases env.gemini (GeminiAIController.summaryPrompt
          (GeminiAIController.summaryWeatherContext env
            (GeminiAIController.jsSort locs))) 300
        with r | r <;> rfl

/-- Witness for the amended C2 at concrete inputs: one failed and one
successful location in the chat endpoint (placeholder present, 200); the
summary endpoint with one success (200) and with all failures (400). -/
theorem c2_amended_per_location_failure_witness :
    (GeminiAIController.handleWeatherChat
        ⟨fun l => if l = "a" then some ⟨20, "clear sky", 50⟩ else none,
          fun _ _ => Except.ok "R"⟩ [] 0 (some "hi")
        (some ["a", "b"])).status = 200 ∧
    ("b" ++ ": Weather data unavailable")
      ∈ (["a", "b"]).map (GeminiAIController.chatEntry
          ⟨fun l => if l = "a" then some ⟨20, "clear sky", 50⟩ else none,
            fun _ _ => Except.ok "R"⟩) ∧
    GeminiAIController.generateWeatherSummary
        ⟨fun _ => none, fun _ _ => Except.ok "R"⟩ [] 0 (some ["a", "b"])
      = ⟨400, none, some "No weather data available for provided locations",
          false, []⟩ ∧
    (GeminiAIController.generateWeatherSummary
        ⟨fun l => if l = "a" then some ⟨20, "clear sky", 50⟩ else none,
          fun _ _ => Except.ok "R"⟩ [] 0 (some ["a", "b"])).status = 200 := by
  refine ⟨?_, ?_, ?_, ?_⟩
  · exact (c2_amended_per_location_failure.1
      ⟨fun l => if l = "a" then some ⟨20, "clear sky", 50⟩ else none,
        fun _ _ => Except.ok "R"⟩ [] 0 "hi" ["a", "b"] (by decide) rfl).1
  · exact ((c2_amended_per_location_failure.1
      ⟨fun l => if l = "a" then some ⟨20, "clear sky", 50⟩ else none,
        fun _ _ => Except.ok "R"⟩ [] 0 "hi" ["a", "b"] (by decide) rfl).2
      "b" (by decide) rfl).2
  · exact (c2_amended_per_location_failure.2
      ⟨fun _ => none, fun _ _ => Except.ok "R"⟩ [] 0 ["a", "b"] (by decide)
      rfl).1 (fun loc _ => rfl)
  · exact (c2_amended_per_location_failure.2
      ⟨fun l => if l = "a" then some ⟨20, "clear sky", 50⟩ else none,
        fun _ _ => Except.ok "R"⟩ [] 0 ["a", "b"] (by decide) rfl).2
      ⟨"a", by decide, by decide⟩

/-! ### Claim C3 -/

/-- Counterexample to C3: when the trivia text is served from the AI
response cache, the 200 response carries no weather data — the body is
`{trivia}` only, not `{trivia, weather}`. -/
theorem c3_counterexample :
    GeminiAIController.generateWeatherTrivia
        ⟨fun _ => some ⟨20, "clear sky", 50⟩, fun _ _ => Except.ok "T"⟩
        [("trivia-\"Paris\"", ⟨"cached trivia", 0⟩)] 10 (some "Paris")
      = ⟨200, some "cached trivia", none, none,
          [("trivia-\"Paris\"", ⟨"cached trivia", 0⟩)]⟩ := by
  decide

/-- C3 (amended): a 200 response of the trivia endpoint contains both the
trivia text and the weather data whenever it is produced on a cache miss;
on a cache hit the 200 response contains only the cached trivia text, with
no weather field. -/
theorem c3_amended_trivia_body (env : GeminiEnv)
    (cache : List (String × AIEntry)) (now : Int) (loc : String)
    (hloc : loc ≠ "") :
    (∀ t, GeminiAIController.getCachedResponse cache now
        (GeminiAIController.getCacheKey "trivia"
          (GeminiAIController.jsonStr loc)) = some t →
      GeminiAIController.generateWeatherTrivia env cache now (some loc)
        = ⟨200, some t, none, none, cache⟩) ∧
    (GeminiAIController.getCachedResponse cache now
        (GeminiAIController.getCacheKey "trivia"
          (GeminiAIController.jsonStr loc)) = none →
      (GeminiAIController.generateWeatherTrivia env cache now
          (some loc)).status = 200 →
      ∃ t w,
        (GeminiAIController.generateWeatherTrivia env cache now
            (some loc)).trivia = some t ∧
        (GeminiAIController.generateWeatherTrivia env cache now
            (some loc)).weather = some w) := by
  constructor
  · intro t hhit
    unfold GeminiAIController.generateWeatherTrivia
    dsimp only
    rw [if_neg hloc, hhit]
  · intro hmiss
    unfold GeminiAIController.generateWeatherTrivia
    dsimp only
    rw [if_neg hloc, hmiss]
    dsimp only
    cases hw : env.weather loc with
    | none =>
      dsimp only
      intro h200
      exact absurd h200 (by decide)
    | some w =>
      dsimp only
      cases hg : env.gemini (GeminiAIController.triviaPrompt loc w) 200 with
      | ok t =>
        dsimp only
        exact fun _ => ⟨t, w, rfl, rfl⟩
      | error u =>
        dsimp only
        exact fun _ => ⟨GeminiAIController.triviaFallback loc w, w, rfl, rfl⟩

/-- Witness for the amended C3: a cache-miss request returns both fields,
a cache-hit request returns the cached text. -/
theorem c3_amended_trivia_body_witness :
    GeminiAIController.generateWeatherTrivia
        ⟨fun _ => some ⟨20, "clear sky", 50⟩, fun _ _ => Except.ok "T"⟩
        [] 0 (some "Paris")
      = ⟨200, some "T", some ⟨20, "clear sky", 50⟩, none,
          [("trivia-\"Paris\"", ⟨"T", 0⟩)]⟩ ∧
    GeminiAIController.generateWeatherTrivia
        ⟨fun _ => some ⟨20, "clear sky", 50⟩, fun _ _ => Except.ok "T"⟩
        [("trivia-\"Paris\"", ⟨"C", 5⟩)] 10 (some "Paris")
      = ⟨200, some "C", none, none, [("trivia-\"Paris\"", ⟨"C", 5⟩)]⟩ := by
  constructor
  · have h := (c3_amended_trivia_body
      ⟨fun _ => some ⟨20, "clear sky", 50⟩, fun _ _ => Except.ok "T"⟩
      [] 0 "Paris" (by decide)).2 rfl (by decide)
    decide
  · exact (c3_amended_trivia_body
      ⟨fun _ => some ⟨20, "clear sky", 50⟩, fun _ _ => Except.ok "T"⟩
      [("trivia-\"Paris\"", ⟨"C", 5⟩)] 10 "Paris" (by decide)).1 "C" rfl

/-! ### Claim C9 -/

/-- Counterexample to C9: with "Paris" stored, creating "Pari." is rejected
with 409 although no stored location equals it case-insensitively — the
"otherwise persist and return 201" clause fails, because the duplicate
check is a regex match on the unescaped input, not a case-insensitive
string comparison. -/
theorem c9_counterexample :
    createWidget [⟨"64a000000000000000000001", "Paris", 0, 0⟩]
        "64a000000000000000000002" 5 (some (BodyVal.str "Pari."))
      = some ⟨409, none, [⟨"64a000000000000000000001", "Paris", 0, 0⟩]⟩ ∧
    ∀ w ∈ [(⟨"64a000000000000000000001", "Paris", 0, 0⟩ : Widget)],
      jsToLower w.location ≠ jsToLower (jsTrim "Pari.") := by
  decide

/-- C9 (amended): a missing, non-string, empty, or whitespace-only location
is rejected with 400.  Otherwise the trimmed input is spliced unescaped
into a case-insensitive anchored `RegExp`: if it does not form a valid
regular expression (e.g. "ab(" or a leading quantifier), the constructor
throws a `SyntaxError` and the endpoint responds 500.  With a valid
pattern, the request is rejected with 409 iff some stored widget's location
fully matches that regex (not literal case-insensitive equality); if no
stored location matches and the trimmed location is 2–100 characters long,
the record is persisted and returned with 201 including the generated id
and timestamps; if no stored location matches but the trimmed length is
outside 2–100, schema validation rejects it with 400.  (The regex-dependent
parts are proven on the modelled fragment and on the provably invalid
patterns; `classifyRegex` leaves the remaining regex constructs
undecided.) -/
theorem c9_amended_create_widget (store : List Widget) (newId : String)
    (now : Int) :
    createWidget store newId now none = some ⟨400, none, store⟩ ∧
    createWidget store newId now (some BodyVal.nonString)
      = some ⟨400, none, store⟩ ∧
    (∀ s : String, s = "" ∨ jsLength (jsTrim s) = 0 →
      createWidget store newId now (some (BodyVal.str s))
        = some ⟨400, none, store⟩) ∧
    (∀ s : String, ¬(s = "" ∨ jsLength (jsTrim s) = 0) →
      classifyRegex (jsTrim s).data = RegexParse.invalid →
      createWidget store newId now (some (BodyVal.str s))
        = some ⟨500, none, store⟩) ∧
    (∀ (s : String) (toks : List (RTok × RQuant)),
      ¬(s = "" ∨ jsLength (jsTrim s) = 0) →
      classifyRegex (jsTrim s).data = RegexParse.parsed toks →
      ((∃ w ∈ store, regexTestCI toks w.location = true) →
        createWidget store newId now (some (BodyVal.str s))
          = some ⟨409, none, store⟩) ∧
      ((∀ w ∈ store, regexTestCI toks w.location = false) →
        ((2 ≤ jsLength (jsTrim s) ∧ jsLength (jsTrim s) ≤ 100 →
          createWidget store newId now (some (BodyVal.str s))
            = some ⟨201, some ⟨newId, jsTrim s, now, now⟩,
                store ++ [⟨newId, jsTrim s, now, now⟩]⟩) ∧
        (¬(2 ≤ jsLength (jsTrim s) ∧ jsLength (jsTrim s) ≤ 100) →
          createWidget store newId now (some (BodyVal.str s))
            = some ⟨400, none, store⟩)))) := by
  refine ⟨rfl, rfl, ?_, ?_, ?_⟩
  · intro s hs
    unfold createWidget
    dsimp only
    rw [if_pos hs]
  · intro s hs hinv
    unfold createWidget
    dsimp only
    rw [if_neg hs, hinv]
  · intro s toks hs hparse
    constructor
    · intro ⟨w, hw, hmatch⟩
      unfold createWidget
      dsimp only
      rw [if_neg hs, hparse]
      dsimp only
      rcases hfound : List.find? (fun w => regexTestCI toks w.location) store
        with _ | w2
      · rw [List.find?_eq_none] at hfound
        exact absurd hmatch (by simpa using hfound w hw)
      · rw [hfound]
    · intro hnone
      have hfound : List.find? (fun w => regexTestCI toks w.location) store
          = none := by
        rw [List.find?_eq_none]
        intro w hw
        simpa using hnone w hw
      constructor
      · intro hlen
        unfold createWidget
        dsimp only
        rw [if_neg hs, hparse]
        dsimp only
        rw [hfound]
        dsimp only
        rw [if_pos hlen]
      · intro hlen
        unfold createWidget
        dsimp only
        rw [if_neg hs, hparse]
        dsimp only
        rw [hfound]
        dsimp only
        rw [if_neg hlen]

/-- Witness for the amended C9: creating "  paris  " with "Paris" stored is
a 409 (the claim's own example), creating "Berlin" in an empty store is a
201 with the generated id and timestamps, and creating "ab(" — three
characters, no duplicate — makes the RegExp constructor throw, so the
endpoint responds 500. -/
theorem c9_amended_create_widget_witness :
    createWidget [⟨"64a000000000000000000001", "Paris", 0, 0⟩]
        "64a000000000000000000002" 5 (some (BodyVal.str "  paris  "))
      = some ⟨409, none, [⟨"64a000000000000000000001", "Paris", 0, 0⟩]⟩ ∧
    createWidget [] "64a000000000000000000003" 9
        (some (BodyVal.str "Berlin"))
      = some ⟨201, some ⟨"64a000000000000000000003", "Berlin", 9, 9⟩,
          [⟨"64a000000000000000000003", "Berlin", 9, 9⟩]⟩ ∧
    createWidget [] "64a000000000000000000004" 3 (some (BodyVal.str "ab("))
      = some ⟨500, none, []⟩ := by
  refine ⟨?_, ?_, ?_⟩
  · exact ((c9_amended_create_widget
      [⟨"64a000000000000000000001", "Paris", 0, 0⟩]
      "64a000000000000000000002" 5).2.2.2.2 "  paris  "
      [(RTok.lit 'p', RQuant.one), (RTok.lit 'a', RQuant.one),
        (RTok.lit 'r', RQuant.one), (RTok.lit 'i', RQuant.one),
        (RTok.lit 's', RQuant.one)]
      (by decide) (by decide)).1
      ⟨⟨"64a000000000000000000001", "Paris", 0, 0⟩, by decide, by decide⟩
  · exact (((c9_amended_create_widget [] "64a000000000000000000003"
      9).2.2.2.2 "Berlin"
      [(RTok.lit 'B', RQuant.one), (RTok.lit 'e', RQuant.one),
        (RTok.lit 'r', RQuant.one), (RTok.lit 'l', RQuant.one),
        (RTok.lit 'i', RQuant.one), (RTok.lit 'n', RQuant.one)]
      (by decide) (by decide)).2 (by decide)).1 (by decide)
  · exact (c9_amended_create_widget [] "64a000000000000000000004"
      3).2.2.2.1 "ab(" (by decide) (by decide)

/-! ### Claim C10 -/

/-- C10: the widget duplicate check builds its case-insensitive regular
expression directly from the trimmed input without escaping metacharacters,
so the duplicate predicate is regex full-match, not literal
case-insensitive equality: "Madri." is rejected with 409 when "Madrid"
exists although no stored location is string-equal to it (the `.` matches
any character), and the pattern "a+b" fails to match the literal text
"a+b" itself (while matching "aab"), so an exact duplicate of a stored
"a+b" is accepted with 201. -/
theorem c10_regex_duplicate_predicate :
    (∃ toks, parseRegex (jsTrim "Madri.").data = some toks ∧
      regexTestCI toks "Madrid" = true) ∧
    createWidget [⟨"64b000000000000000000001", "Madrid", 0, 0⟩]
        "64b000000000000000000002" 7 (some (BodyVal.str "Madri."))
      = some ⟨409, none, [⟨"64b000000000000000000001", "Madrid", 0, 0⟩]⟩ ∧
    (∀ w ∈ [(⟨"64b000000000000000000001", "Madrid", 0, 0⟩ : Widget)],
      w.location ≠ "Madri." ∧ jsToLower w.location ≠ jsToLower "Madri.") ∧
    (∃ toks, parseRegex (jsTrim "a+b").data = some toks ∧
      regexTestCI toks "a+b" = false ∧ regexTestCI toks "aab" = true) ∧
    createWidget [⟨"64b000000000000000000003", "a+b", 0, 0⟩]
        "64b000000000000000000004" 7 (some (BodyVal.str "a+b"))
      = some ⟨201, some ⟨"64b000000000000000000004", "a+b", 7, 7⟩,
          [⟨"64b000000000000000000003", "a+b", 0, 0⟩,
            ⟨"64b000000000000000000004", "a+b", 7, 7⟩]⟩ := by
  refine ⟨⟨[(RTok.lit 'M', RQuant.one), (RTok.lit 'a', RQuant.one),
      (RTok.lit 'd', RQuant.one), (RTok.lit 'r', RQuant.one),
      (RTok.lit 'i', RQuant.one), (RTok.dot, RQuant.one)],
      by decide, by decide⟩,
    by decide, by decide,
    ⟨[(RTok.lit 'a', RQuant.plus), (RTok.lit 'b', RQuant.one)],
      by decide, by decide, by decide⟩,
    by decide⟩
